import Mathlib

/-!
Verification of the FastAPI restaurant service (`src/main.py`) against its
natural-language specification.  The SQLAlchemy tables become Lean structures,
the database becomes an explicit `Store` of row lists (rows appear in load
order), and each route handler becomes a function from `Store` to a result
paired with the (possibly updated) `Store`.  Generated primary keys are
modelled by `freshId`: one more than the largest id already present, so ids
are handed out in insertion order as a database sequence would.
-/

/-- Row of the `restaurants` table. -/
structure Restaurant where
  id : Nat
  name : String
  address : String
  phone : String
deriving Repr, DecidableEq

/-- Row of the `menu_categories` table; `restaurant_id` is the foreign key to
`restaurants.id` backing the `menu_categories` relationship. -/
structure MenuCategory where
  id : Nat
  restaurant_id : Nat
  name : String
deriving Repr, DecidableEq

/-- Row of the `menu_items` table; `category_id` is the foreign key to
`menu_categories.id` backing the `menu_items` relationship.  `price` is the
stored numeric value (copied verbatim by every handler, never computed with),
modelled as a rational. -/
structure MenuItem where
  id : Nat
  category_id : Nat
  name : String
  description : String
  price : ℚ
deriving Repr, DecidableEq

/-- Row of the `customers` table. -/
structure Customer where
  id : Nat
  name : String
  email : String
  phone : String
deriving Repr, DecidableEq

/-- Row of the `orders` table (schema-only in this repo: no endpoint or seed
writes it).  `order_time` is an abstract timestamp. -/
structure Order where
  id : Nat
  customer_id : Nat
  restaurant_id : Nat
  order_time : Nat
  status : String
  total_amount : ℚ
deriving Repr, DecidableEq

/-- Row of the `order_items` table (schema-only in this repo). -/
structure OrderItem where
  id : Nat
  order_id : Nat
  menu_item_id : Nat
  quantity : Nat
  price : ℚ
deriving Repr, DecidableEq

/-- Modelled from the spec: row of the `users` table of the user variant of the
service; that variant's source is not under src/.  Per the spec a User has a
generated id, a username and an email. -/
structure User where
  id : Nat
  username : String
  email : String
deriving Repr, DecidableEq

/-- The whole database: one list of rows per table, in the order the rows were
loaded/inserted.  The `users` table belongs to the user variant and is
modelled from the spec. -/
structure Store where
  restaurants : List Restaurant
  menu_categories : List MenuCategory
  menu_items : List MenuItem
  customers : List Customer
  orders : List Order
  order_items : List OrderItem
  users : List User
deriving Repr, DecidableEq

/-- The store with every table empty (the state after `create_all` on a fresh
database). -/
def emptyStore : Store := ⟨[], [], [], [], [], [], []⟩

/-- A generated primary key: one more than the largest id present, as a
database integer sequence hands them out. -/
def freshId (ids : List Nat) : Nat := ids.foldr max 0 + 1

/-- `raise HTTPException(status_code=..., detail=...)`. -/
structure HTTPException where
  status_code : Nat
  detail : String
deriving Repr, DecidableEq

/-- The HTTP status FastAPI sends for a handler outcome: 200 for a plain
return, the exception's code for a raised `HTTPException`. -/
def statusOf {α : Type} : Except HTTPException α → Nat
  | .ok _ => 200
  | .error e => e.status_code

/-- `db.add(Restaurant(...)); db.commit(); db.refresh(...)`: the committed row
with its generated id, and the store holding it. -/
def insertRestaurant (s : Store) (name address phone : String) :
    Restaurant × Store :=
  let r : Restaurant := ⟨freshId (s.restaurants.map (·.id)), name, address, phone⟩
  (r, { s with restaurants := s.restaurants ++ [r] })

/-- Commit one `MenuCategory` row and retrieve it with its generated id. -/
def insertCategory (s : Store) (name : String) (restaurant_id : Nat) :
    MenuCategory × Store :=
  let c : MenuCategory := ⟨freshId (s.menu_categories.map (·.id)), restaurant_id, name⟩
  (c, { s with menu_categories := s.menu_categories ++ [c] })

/-- Commit one `MenuItem` row and retrieve it with its generated id. -/
def insertMenuItem (s : Store) (name description : String) (price : ℚ)
    (category_id : Nat) : MenuItem × Store :=
  let i : MenuItem := ⟨freshId (s.menu_items.map (·.id)), category_id, name, description, price⟩
  (i, { s with menu_items := s.menu_items ++ [i] })

/-- Commit one `Customer` row and retrieve it with its generated id. -/
def insertCustomer (s : Store) (name email phone : String) :
    Customer × Store :=
  let c : Customer := ⟨freshId (s.customers.map (·.id)), name, email, phone⟩
  (c, { s with customers := s.customers ++ [c] })

/-- `init_sample_data` from src/main.py: if `db.query(Restaurant).first()`
finds no row, insert two restaurants, commit and refresh them, then four
categories referencing their ids, then four menu items referencing the
category ids, then one customer; otherwise do nothing. -/
def init_sample_data (s : Store) : Store :=
  if s.restaurants.isEmpty then
    let (r1, s) := insertRestaurant s "Pizza Place" "123 Main St" "1234567890"
    let (r2, s) := insertRestaurant s "Burger Corner" "456 Side St" "9876543210"
    let (cat1, s) := insertCategory s "Pizza" r1.id
    let (cat2, s) := insertCategory s "Drinks" r1.id
    let (cat3, s) := insertCategory s "Burgers" r2.id
    let (cat4, s) := insertCategory s "Drinks" r2.id
    let (_, s) := insertMenuItem s "Margherita" "Cheese pizza" (5.99 : ℚ) cat1.id
    let (_, s) := insertMenuItem s "Coke" "Soft drink" (1.5 : ℚ) cat2.id
    let (_, s) := insertMenuItem s "Veggie Burger" "Tasty veggie burger" (4.5 : ℚ) cat3.id
    let (_, s) := insertMenuItem s "Pepsi" "Soft drink" (1.5 : ℚ) cat4.id
    let (_, s) := insertCustomer s "Sindhur" "sindhur@example.com" "1122334455"
    s
  else s

/-- Response body of `GET /`. -/
structure HealthResponse where
  message : String
deriving Repr, DecidableEq

/-- The `health` handler: returns a fixed message and touches no table. -/
def health (s : Store) : Except HTTPException HealthResponse × Store :=
  (.ok ⟨"API is running ✅"⟩, s)

/-- One element of the `GET /restaurants` response. -/
structure RestaurantOut where
  id : Nat
  name : String
  address : String
  phone : String
deriving Repr, DecidableEq

/-- The `get_restaurants` handler: maps every `Restaurant` row to its output
shape. -/
def get_restaurants (s : Store) : Except HTTPException (List RestaurantOut) × Store :=
  (.ok (s.restaurants.map fun r => ⟨r.id, r.name, r.address, r.phone⟩), s)

/-- One item of a menu entry in the `GET /menu/id` response. -/
structure MenuItemOut where
  id : Nat
  name : String
  price : ℚ
deriving Repr, DecidableEq

/-- One entry of the `GET /menu/id` response. -/
structure MenuEntry where
  category : String
  items : List MenuItemOut
deriving Repr, DecidableEq

/-- The ORM relationship `restaurant.menu_categories`: the `MenuCategory` rows
whose `restaurant_id` foreign key is the restaurant's id, in load order. -/
def ownedCategories (s : Store) (r : Restaurant) : List MenuCategory :=
  s.menu_categories.filter fun c => c.restaurant_id == r.id

/-- The ORM relationship `category.menu_items`: the `MenuItem` rows whose
`category_id` foreign key is the category's id, in load order. -/
def ownedItems (s : Store) (c : MenuCategory) : List MenuItem :=
  s.menu_items.filter fun i => i.category_id == c.id

/-- The `get_menu` handler: look up the restaurant by id; raise 404 if absent;
otherwise loop over its owned categories, appending one entry per category
with that category's items mapped to the output shape. -/
def get_menu (restaurant_id : Nat) (s : Store) :
    Except HTTPException (List MenuEntry) × Store :=
  match s.restaurants.find? (fun r => r.id == restaurant_id) with
  | none => (.error ⟨404, "Restaurant not found"⟩, s)
  | some restaurant =>
      let menu := (ownedCategories s restaurant).foldl
        (fun menu cat =>
          let items := (ownedItems s cat).map fun i => MenuItemOut.mk i.id i.name i.price
          menu ++ [⟨cat.name, items⟩]) []
      (.ok menu, s)

/-- Echo body of a successful `POST /register`. -/
structure UserOut where
  id : Nat
  username : String
  email : String
deriving Repr, DecidableEq

/-- Modelled from the spec: the `/register` handler of the user variant, whose
source is not under src/.  Per the spec it inserts a User row and returns 200
echoing id/username/email, or fails with 400 and detail "User already exists"
when the username or email already exists (uniqueness conflict), inserting
nothing in that case. -/
def register (s : Store) (username email : String) :
    Except HTTPException UserOut × Store :=
  if s.users.any (fun u => u.username == username || u.email == email) then
    (.error ⟨400, "User already exists"⟩, s)
  else
    let u : User := ⟨freshId (s.users.map (·.id)), username, email⟩
    (.ok ⟨u.id, u.username, u.email⟩, { s with users := s.users ++ [u] })

/-- The store produced by seeding a fresh database, used as a concrete test
state. -/
def seededStore : Store := init_sample_data emptyStore

/-- The second store produced by registering a user on the seeded store, used
to exercise the uniqueness conflict. -/
def regStore : Store := (register seededStore "alice" "alice@example.com").2

/-- A store with a restaurant that owns no categories (id 1) and a restaurant
(id 2) owning one category (id 7) that has no items, used to exercise the
empty-menu cases. -/
def emptyMenuStore : Store :=
  { restaurants := [⟨1, "NoCats", "a", "p"⟩, ⟨2, "EmptyCat", "b", "q"⟩]
    menu_categories := [⟨7, 2, "Empty"⟩]
    menu_items := []
    customers := []
    orders := []
    order_items := []
    users := [] }

/-- Appending one transformed element per loop iteration is the same as
mapping the transformation over the list. -/
lemma foldl_append_singleton {α β : Type} (f : α → β) :
    ∀ (l : List α) (acc : List β),
      l.foldl (fun m c => m ++ [f c]) acc = acc ++ l.map f := by
  intro l
  induction l with
  | nil => intro acc; simp
  | cons x xs ih => intro acc; simp [ih]

/-- `get_menu` on a store holding a restaurant matching the requested id
returns one entry per owned category, in load order, carrying the owned
items. -/
lemma get_menu_found (s : Store) (rid : Nat) (r : Restaurant)
    (h : s.restaurants.find? (fun x => x.id == rid) = some r) :
    (get_menu rid s).1 =
      .ok ((ownedCategories s r).map fun c =>
        MenuEntry.mk c.name ((ownedItems s c).map fun i =>
          MenuItemOut.mk i.id i.name i.price)) := by
  simp only [get_menu, h]
  rw [foldl_append_singleton]
  simp

/-- C1: for every restaurant_id matching a Restaurant row, get_menu returns
one entry per MenuCategory owned by that restaurant, in the order the
categories were loaded, each entry carrying the category's name and exactly
the MenuItems owned by that category as id/name/price with the stored
price. -/
theorem get_menu_known_restaurant (s : Store) (rid : Nat) (r : Restaurant)
    (h : s.restaurants.find? (fun x => x.id == rid) = some r) :
    (get_menu rid s).1 =
      .ok ((s.menu_categories.filter fun c => c.restaurant_id == r.id).map
        fun c => MenuEntry.mk c.name
          ((s.menu_items.filter fun i => i.category_id == c.id).map fun i =>
            MenuItemOut.mk i.id i.name i.price)) :=
  get_menu_found s rid r h

/-- Witness for C1 at the seeded store and restaurant id 1. -/
theorem get_menu_known_restaurant_witness :
    (get_menu 1 seededStore).1 =
      .ok ((seededStore.menu_categories.filter fun c =>
            c.restaurant_id == (Restaurant.mk 1 "Pizza Place" "123 Main St" "1234567890").id).map
        fun c => MenuEntry.mk c.name
          ((seededStore.menu_items.filter fun i => i.category_id == c.id).map fun i =>
            MenuItemOut.mk i.id i.name i.price)) :=
  get_menu_known_restaurant seededStore 1
    (Restaurant.mk 1 "Pizza Place" "123 Main St" "1234567890") rfl

/-- C2: get_menu fails with a 404 HTTPException carrying detail "Restaurant
not found" exactly when no Restaurant row matches the requested id, and
succeeds whenever a matching row exists. -/
theorem get_menu_not_found_behavior (s : Store) (rid : Nat) :
    ((∀ r ∈ s.restaurants, r.id ≠ rid) →
      (get_menu rid s).1 = .error ⟨404, "Restaurant not found"⟩ ∧
      statusOf (get_menu rid s).1 = 404) ∧
    ((∃ r ∈ s.restaurants, r.id = rid) →
      ∃ m, (get_menu rid s).1 = .ok m) := by
  constructor
  · intro h
    have hnone : s.restaurants.find? (fun x => x.id == rid) = none := by
      rw [List.find?_eq_none]
      intro x hx
      simpa using h x hx
    simp [get_menu, hnone, statusOf]
  · rintro ⟨r, hr, hid⟩
    cases hfind : s.restaurants.find? (fun x => x.id == rid) with
    | none =>
        rw [List.find?_eq_none] at hfind
        exact absurd (by simpa using hid) (by simpa using hfind r hr)
    | some r' =>
        exact ⟨_, get_menu_found s rid r' hfind⟩

/-- Witness for C2: unknown id 9999 yields the 404 error on the seeded store,
and known id 1 succeeds there. -/
theorem get_menu_not_found_behavior_witness :
    (get_menu 9999 seededStore).1 = .error ⟨404, "Restaurant not found"⟩ ∧
    ∃ m, (get_menu 1 seededStore).1 = .ok m :=
  ⟨((get_menu_not_found_behavior seededStore 9999).1 (by decide)).1,
   (get_menu_not_found_behavior seededStore 1).2
     ⟨Restaurant.mk 1 "Pizza Place" "123 Main St" "1234567890", by decide, rfl⟩⟩

/-- Any store seeded by `init_sample_data` holds at least one Restaurant
row. -/
lemma init_sample_data_restaurants_ne_nil (s : Store) :
    (init_sample_data s).restaurants ≠ [] := by
  by_cases h : s.restaurants.isEmpty
  · simp [init_sample_data, h, insertRestaurant, insertCategory, insertMenuItem,
      insertCustomer]
  · simp only [init_sample_data, h, if_neg, Bool.false_eq_true, not_false_iff,
      ite_false]
    intro hnil
    simp [hnil] at h

/-- When a Restaurant row already exists, `init_sample_data` leaves the store
untouched. -/
lemma init_sample_data_noop (s : Store) (h : s.restaurants ≠ []) :
    init_sample_data s = s := by
  cases hr : s.restaurants with
  | nil => exact absurd hr h
  | cons a l => simp [init_sample_data, hr]

/-- C3: seeding is idempotent: on a store already holding a Restaurant row it
inserts nothing and leaves the store unchanged, and running it twice equals
running it once (so from an empty store the sample rows are inserted exactly
once). -/
theorem init_sample_data_idempotent (s : Store) :
    (s.restaurants ≠ [] → init_sample_data s = s) ∧
    init_sample_data (init_sample_data s) = init_sample_data s :=
  ⟨init_sample_data_noop s,
   init_sample_data_noop (init_sample_data s) (init_sample_data_restaurants_ne_nil s)⟩

/-- Witness for C3: the seeded store is left unchanged, and seeding twice from
the empty store equals seeding once. -/
theorem init_sample_data_idempotent_witness :
    init_sample_data seededStore = seededStore ∧
    init_sample_data (init_sample_data emptyStore) = init_sample_data emptyStore :=
  ⟨(init_sample_data_idempotent seededStore).1 (by decide),
   (init_sample_data_idempotent emptyStore).2⟩

/-- C4: POST /register inserts a User row and returns 200 echoing
id/username/email, or fails with 400 and detail "User already exists" when
the username or email already exists, leaving the user count unchanged on
failure (modelled from the spec: the user variant's source is not under
src/). -/
theorem register_behavior (s : Store) (username email : String) :
    ((∃ u ∈ s.users, u.username = username ∨ u.email = email) →
      (register s username email).1 = .error ⟨400, "User already exists"⟩ ∧
      statusOf (register s username email).1 = 400 ∧
      (register s username email).2.users.length = s.users.length) ∧
    ((∀ u ∈ s.users, u.username ≠ username ∧ u.email ≠ email) →
      ∃ id, (register s username email).1 = .ok ⟨id, username, email⟩ ∧
        statusOf (register s username email).1 = 200 ∧
        (register s username email).2.users = s.users ++ [⟨id, username, email⟩]) := by
  constructor
  · rintro ⟨u, hu, hcase⟩
    have hany : s.users.any (fun u => u.username == username || u.email == email) = true := by
      rw [List.any_eq_true]
      exact ⟨u, hu, by simpa using hcase⟩
    simp [register, hany, statusOf]
  · intro h
    have hany : s.users.any (fun u => u.username == username || u.email == email) = false := by
      rw [Bool.eq_false_iff]
      intro hc
      rw [List.any_eq_true] at hc
      obtain ⟨u, hu, hcase⟩ := hc
      rcases by simpa using hcase with hl | hr
      · exact (h u hu).1 hl
      · exact (h u hu).2 hr
    exact ⟨freshId (s.users.map (·.id)), by simp [register, hany],
      by simp [register, hany, statusOf], by simp [register, hany]⟩

/-- Witness for C4: registering alice on the seeded store (no users) succeeds,
and registering alice again on the resulting store fails with 400 leaving the
user count at one. -/
theorem register_behavior_witness :
    (∃ id, (register seededStore "alice" "alice@example.com").1 =
        .ok ⟨id, "alice", "alice@example.com"⟩ ∧
        statusOf (register seededStore "alice" "alice@example.com").1 = 200 ∧
        (register seededStore "alice" "alice@example.com").2.users =
          seededStore.users ++ [⟨id, "alice", "alice@example.com"⟩]) ∧
    (register regStore "alice" "bob@example.com").1 = .error ⟨400, "User already exists"⟩ ∧
    statusOf (register regStore "alice" "bob@example.com").1 = 400 ∧
    (register regStore "alice" "bob@example.com").2.users.length = regStore.users.length :=
  ⟨(register_behavior seededStore "alice" "alice@example.com").2 (by decide),
   (register_behavior regStore "alice" "bob@example.com").1
     ⟨User.mk 1 "alice" "alice@example.com", by decide, by decide⟩⟩

/-- Counterexample to C5 at the empty store: the health payload's message is
not the string "API is running" (the handler appends a check-mark emoji). -/
theorem health_message_counterexample :
    ∃ m, (health emptyStore).1 = .ok m ∧ m.message ≠ "API is running" :=
  ⟨⟨"API is running ✅"⟩, rfl, by decide⟩

/-- C5 (amended): for every store, health returns exactly the fixed payload
with message "API is running ✅" at status 200, never fails, and is
independent of the store's state. -/
theorem health_fixed_payload (s : Store) :
    health s = (.ok ⟨"API is running ✅"⟩, s) ∧
    statusOf (health s).1 = 200 :=
  ⟨rfl, rfl⟩

/-- C6: get_restaurants returns one element per Restaurant row, in load order
with no filtering, never fails (status 200), and returns the empty sequence
on a store with no restaurants. -/
theorem get_restaurants_all_rows (s : Store) :
    (get_restaurants s).1 =
      .ok (s.restaurants.map fun r => RestaurantOut.mk r.id r.name r.address r.phone) ∧
    statusOf (get_restaurants s).1 = 200 ∧
    (s.restaurants = [] → (get_restaurants s).1 = .ok []) := by
  refine ⟨rfl, rfl, fun h => ?_⟩
  simp [get_restaurants, h]

/-- Witness for C6: on the empty store the restaurant list is empty. -/
theorem get_restaurants_all_rows_witness :
    (get_restaurants emptyStore).1 = .ok [] :=
  (get_restaurants_all_rows emptyStore).2.2 rfl

/-- Counterexample to C7 at the empty store: the seed step inserts no Order
and no OrderItem row, so the sample rows do not span every entity type. -/
theorem init_sample_data_no_orders :
    (init_sample_data emptyStore).orders = [] ∧
    (init_sample_data emptyStore).order_items = [] := by
  constructor <;> rfl

/-- C7 (amended): run against the empty store, the seed step inserts a fixed
set of sample rows spanning Restaurant, MenuCategory, MenuItem and Customer
(no Order or OrderItem rows), in dependency order: every inserted
MenuCategory references an inserted Restaurant id and every inserted MenuItem
references an inserted MenuCategory id. -/
theorem init_sample_data_seeds_with_fk :
    (init_sample_data emptyStore).restaurants.length = 2 ∧
    (init_sample_data emptyStore).menu_categories.length = 4 ∧
    (init_sample_data emptyStore).menu_items.length = 4 ∧
    (init_sample_data emptyStore).customers.length = 1 ∧
    ((init_sample_data emptyStore).menu_categories.all fun c =>
      (init_sample_data emptyStore).restaurants.any fun r =>
        r.id == c.restaurant_id) = true ∧
    ((init_sample_data emptyStore).menu_items.all fun i =>
      (init_sample_data emptyStore).menu_categories.any fun c =>
        c.id == i.category_id) = true := by
  refine ⟨rfl, rfl, rfl, rfl, ?_, ?_⟩ <;> decide

/-- C8: the health, list-restaurants and get-menu handlers are pure reads:
whatever the store state and the requested id, and whether get_menu succeeds
or raises, every table of the store is left unchanged. -/
theorem read_handlers_leave_store_unchanged (s : Store) (rid : Nat) :
    (health s).2 = s ∧ (get_restaurants s).2 = s ∧ (get_menu rid s).2 = s := by
  refine ⟨rfl, rfl, ?_⟩
  cases hfind : s.restaurants.find? (fun r => r.id == rid) with
  | none => simp [get_menu, hfind]
  | some r => simp [get_menu, hfind]

/-- C9: a matching restaurant owning no categories yields the empty menu (no
error), and an owned category owning no items still appears as an entry with
an empty item list. -/
theorem get_menu_empty_relationships (s : Store) (rid : Nat) (r : Restaurant)
    (h : s.restaurants.find? (fun x => x.id == rid) = some r) :
    ((∀ c ∈ s.menu_categories, c.restaurant_id ≠ r.id) →
      (get_menu rid s).1 = .ok []) ∧
    (∀ c ∈ s.menu_categories, c.restaurant_id = r.id →
      (∀ i ∈ s.menu_items, i.category_id ≠ c.id) →
      ∃ m, (get_menu rid s).1 = .ok m ∧ MenuEntry.mk c.name [] ∈ m) := by
  constructor
  · intro hc
    have hcats : ownedCategories s r = [] := by
      rw [ownedCategories, List.filter_eq_nil_iff]
      intro c hcmem
      simpa using hc c hcmem
    rw [get_menu_found s rid r h, hcats]
    rfl
  · intro c hcmem hcown hitems
    have hempty : ownedItems s c = [] := by
      rw [ownedItems, List.filter_eq_nil_iff]
      intro i himem
      simpa using hitems i himem
    refine ⟨_, get_menu_found s rid r h, ?_⟩
    have : MenuEntry.mk c.name ((ownedItems s c).map fun i =>
        MenuItemOut.mk i.id i.name i.price) ∈
        (ownedCategories s r).map fun c => MenuEntry.mk c.name
          ((ownedItems s c).map fun i => MenuItemOut.mk i.id i.name i.price) :=
      List.mem_map_of_mem _ (by
        rw [ownedCategories, List.mem_filter]
        exact ⟨hcmem, by simpa using hcown⟩)
    simpa [hempty] using this

/-- Witness for C9 on a store with a category-less restaurant (id 1) and a
restaurant (id 2) owning one item-less category named "Empty". -/
theorem get_menu_empty_relationships_witness :
    (get_menu 1 emptyMenuStore).1 = .ok [] ∧
    ∃ m, (get_menu 2 emptyMenuStore).1 = .ok m ∧ MenuEntry.mk "Empty" [] ∈ m :=
  ⟨(get_menu_empty_relationships emptyMenuStore 1
      (Restaurant.mk 1 "NoCats" "a" "p") rfl).1 (by decide),
   (get_menu_empty_relationships emptyMenuStore 2
      (Restaurant.mk 2 "EmptyCat" "b" "q") rfl).2
     (MenuCategory.mk 7 2 "Empty") (by decide) rfl (by decide)⟩

/-- C10: the read handlers are deterministic: two runs of get_restaurants on
the same store state return identical results, as do two runs of get_menu on
the same store state and restaurant_id. -/
theorem read_handlers_deterministic (s t : Store) (rid : Nat) (h : s = t) :
    get_restaurants s = get_restaurants t ∧
    get_menu rid s = get_menu rid t := by
  subst h
  exact ⟨rfl, rfl⟩

/-- Witness for C10 at the seeded store. -/
theorem read_handlers_deterministic_witness :
    get_restaurants seededStore = get_restaurants seededStore ∧
    get_menu 1 seededStore = get_menu 1 seededStore :=
  read_handlers_deterministic seededStore seededStore 1 rfl
